import Mathlib

/-
Verification of the continuous predator-prey and drone-team-capture scenario
models (posggym.envs.continuous.predator_prey and
posggym.envs.continuous.drone_team_capture).

Python floats are modelled as real numbers.  The shared world engine
(posggym.envs.continuous.core and core2) is not part of the repository's
source files; the handful of engine functions the scenario code calls
(euclidean_dist, convert_angle_to_negpi_pi_interval, convert_into_interval,
linear_to_xy_velocity, clip_actions, simulate, check_collision_circular_rays)
are modelled from the specification, each marked in its doc comment.
Real division is total in Lean (x / 0 = 0); where a claim is about
division-by-zero behaviour the exact divisor of the source expression is
exposed as its own definition so that its vanishing can be stated directly.
-/

open Real

namespace PCN

/-- Modelled from the spec (library function math.atan2 used by the source):
the angle of the vector (x, y), with atan2 0 0 = 0 as in Python. -/
noncomputable def atan2 (y x : ℝ) : ℝ :=
  if 0 < x then Real.arctan (y / x)
  else if x < 0 ∧ 0 ≤ y then Real.arctan (y / x) + Real.pi
  else if x < 0 ∧ y < 0 then Real.arctan (y / x) - Real.pi
  else if x = 0 ∧ 0 < y then Real.pi / 2
  else if x = 0 ∧ y < 0 then -(Real.pi / 2)
  else 0

lemma atan2_zero_zero : atan2 0 0 = 0 := by
  simp [atan2]

/-- Modelled from the spec: convert_angle_to_negpi_pi_interval
(posggym.envs.continuous.core, not under src/), the normalize_angle utility
mapping any real angle into the interval (-pi, pi] by adding or subtracting
multiples of 2*pi. -/
noncomputable def normAngle (a : ℝ) : ℝ :=
  a - 2 * Real.pi * (⌈a / (2 * Real.pi) - 1 / 2⌉ : ℤ)

/-- Modelled from the spec: convert_into_interval
(posggym.envs.continuous.core, not under src/), the remap utility: affine
rescale from [srcLo, srcHi] to [dstLo, dstHi], clamping to the destination
interval (the spec fixes observation features to [-1, 1], so the saturating
policy is the one the engine uses). -/
noncomputable def convertIntoInterval (v srcLo srcHi dstLo dstHi : ℝ) : ℝ :=
  max dstLo (min dstHi (dstLo + (v - srcLo) * (dstHi - dstLo) / (srcHi - srcLo)))

lemma convertIntoInterval_mem (v srcLo srcHi dstLo dstHi : ℝ)
    (h : dstLo ≤ dstHi) :
    dstLo ≤ convertIntoInterval v srcLo srcHi dstLo dstHi ∧
      convertIntoInterval v srcLo srcHi dstLo dstHi ≤ dstHi := by
  refine ⟨le_max_left _ _, ?_⟩
  exact max_le h (min_le_left _ _)

/-- Modelled from the spec: componentwise clamp used by clip_actions
(posggym.envs.continuous.core, not under src/) to clip an action component
into the bounds of its Box action space. -/
noncomputable def clipR (x lo hi : ℝ) : ℝ := max lo (min hi x)

lemma clipR_eq_self {x lo hi : ℝ} (h1 : lo ≤ x) (h2 : x ≤ hi) :
    clipR x lo hi = x := by
  rw [clipR, min_eq_right h2, max_eq_right h1]

/-- Modelled from the spec: linear_to_xy_velocity / velocity_from_heading
(posggym.envs.continuous.core, not under src/):
(speed * cos heading, speed * sin heading). -/
noncomputable def velocityFromHeading (speed heading : ℝ) : ℝ × ℝ :=
  (speed * Real.cos heading, speed * Real.sin heading)

/-- A kinematic body record: the six features of PMBodyState as used by the
scenario code, in order x, y, angle, vx, vy, angular velocity. -/
structure Body where
  x : ℝ
  y : ℝ
  angle : ℝ
  vx : ℝ
  vy : ℝ
  avel : ℝ

/-- Modelled from the spec: euclidean_dist (posggym.envs.continuous.core,
not under src/): the 2-norm of the difference of the two positions (the
first two features). -/
noncomputable def euclideanDist (a b : Body) : ℝ :=
  Real.sqrt ((a.x - b.x) ^ 2 + (a.y - b.y) ^ 2)

lemma euclideanDist_nonneg (a b : Body) : 0 ≤ euclideanDist a b :=
  Real.sqrt_nonneg _

lemma euclideanDist_self (a : Body) : euclideanDist a a = 0 := by
  simp [euclideanDist]

/-- The interval (-pi, pi] contains normAngle a for every a. -/
lemma normAngle_mem (a : ℝ) :
    -Real.pi < normAngle a ∧ normAngle a ≤ Real.pi := by
  have hpi : (0 : ℝ) < Real.pi := Real.pi_pos
  have h2pi : (0 : ℝ) < 2 * Real.pi := by linarith
  set c : ℤ := ⌈a / (2 * Real.pi) - 1 / 2⌉ with hc
  have h1 : a / (2 * Real.pi) - 1 / 2 ≤ (c : ℝ) := Int.le_ceil _
  have h2 : (c : ℝ) < a / (2 * Real.pi) - 1 / 2 + 1 := Int.ceil_lt_add_one _
  have e1 : (a / (2 * Real.pi) - 1 / 2 + 1) * (2 * Real.pi) = a + Real.pi := by
    field_simp
    ring
  have e2 : (a / (2 * Real.pi) - 1 / 2) * (2 * Real.pi) = a - Real.pi := by
    field_simp
    ring
  have hlow : (c : ℝ) * (2 * Real.pi) < a + Real.pi := by
    calc (c : ℝ) * (2 * Real.pi) < (a / (2 * Real.pi) - 1 / 2 + 1) * (2 * Real.pi) :=
          mul_lt_mul_of_pos_right h2 h2pi
    _ = a + Real.pi := e1
  have hhigh : a - Real.pi ≤ (c : ℝ) * (2 * Real.pi) := by
    calc a - Real.pi = (a / (2 * Real.pi) - 1 / 2) * (2 * Real.pi) := e2.symm
    _ ≤ (c : ℝ) * (2 * Real.pi) := mul_le_mul_of_nonneg_right h1 (le_of_lt h2pi)
  constructor
  · rw [normAngle, ← hc]
    nlinarith [hlow]
  · rw [normAngle, ← hc]
    nlinarith [hhigh]

/-- Angles already in (-pi, pi] are fixed by normAngle. -/
lemma normAngle_eq_self {a : ℝ} (h1 : -Real.pi < a) (h2 : a ≤ Real.pi) :
    normAngle a = a := by
  have hpi : (0 : ℝ) < Real.pi := Real.pi_pos
  have h2pi : (0 : ℝ) < 2 * Real.pi := by linarith
  have hu : a / (2 * Real.pi) ≤ 1 / 2 := by
    rw [div_le_iff₀ h2pi]
    linarith
  have hl : -(1 / 2 : ℝ) < a / (2 * Real.pi) := by
    rw [neg_lt, ← neg_div, div_lt_iff₀ h2pi]
    linarith
  have hceil : ⌈a / (2 * Real.pi) - 1 / 2⌉ = 0 := by
    rw [Int.ceil_eq_zero_iff]
    simp only [Set.mem_Ioc]
    constructor
    · linarith
    · linarith
  rw [normAngle, hceil]
  simp

lemma normAngle_zero : normAngle 0 = 0 :=
  normAngle_eq_self (by linarith [Real.pi_pos]) (le_of_lt Real.pi_pos)

end PCN

namespace DTC

open PCN

/-- Constructor parameters of DroneTeamCaptureModel that the embedded
functions depend on (num_agents, n_communicating_pursuers, velocity_control,
arena_size, observation_limit, capture_radius). -/
structure Params where
  nPursuers : ℕ
  nCom : ℕ
  velocityControl : Bool
  rArena : ℝ
  observationLimit : ℝ
  captureRadius : ℝ

/-- Fixed model parameter max_pursuer_vel = 10. -/
noncomputable def maxPursuerVel : ℝ := 10

/-- Fixed model parameter target_rel_vel_bounds = (0.5, 2.0). -/
noncomputable def targetRelVelBounds : ℝ × ℝ := (1 / 2, 2)

/-- Fixed model parameter max_rel_dist_change
= max_pursuer_vel * (1 + target_rel_vel_bounds[1]). -/
noncomputable def maxRelDistChange : ℝ := maxPursuerVel * (1 + targetRelVelBounds.2)

/-- Fixed model parameter norm_max_rel_dist_change
= max_rel_dist_change / (2 * arena_size). -/
noncomputable def normMaxRelDistChange (P : Params) : ℝ :=
  maxRelDistChange / (2 * P.rArena)

/-- Fixed model parameter dyaw_limit = pi / 10. -/
noncomputable def dyawLimit : ℝ := Real.pi / 10

/-- A state of the Drone Team Capture model (DTCState): per-pursuer body
states, the previous per-pursuer body states, the target body state, the
previous target body state and the target velocity.  The per-pursuer arrays
are modelled as total functions from the pursuer index. -/
structure State where
  pursuers : ℕ → Body
  prevPursuers : ℕ → Body
  target : Body
  prevTarget : Body
  targetVel : ℝ

/-- DroneTeamCaptureModel._engagement: the (bearing, distance) pair from
agent_i to agent_j, both normalized, together with the visibility flag;
the sentinel ((-1, -1), false) is returned when the distance strictly
exceeds observation_limit. -/
noncomputable def engagement (P : Params) (bi bj : Body) (distNormFactor : ℝ) :
    (ℝ × ℝ) × Bool :=
  let dist := euclideanDist bi bj
  if P.observationLimit < dist then ((-1, -1), false)
  else
    let yaw := bi.angle
    let rx := bi.x - bj.x
    let ry := bi.y - bj.y
    let rotx := Real.cos yaw * rx + Real.sin yaw * ry
    let roty := -Real.sin yaw * rx + Real.cos yaw * ry
    let alpha := normAngle (atan2 roty rotx)
    ((alpha / Real.pi, dist / distNormFactor), true)

/-- The derived rate-of-change features of DroneTeamCaptureModel._get_obs
(the alpha_rate / dist_rate computation, source lines 514-531): if the
target engagement is not visible in the current or the previous state both
features are -1; otherwise the wraparound-safe bearing difference and the
remapped normalized-distance difference. -/
noncomputable def rateFeatures (P : Params) (s : State) (i : ℕ) : ℝ × ℝ :=
  let cur := engagement P (s.pursuers i) s.target (2 * P.rArena)
  let prev := engagement P (s.prevPursuers i) s.prevTarget (2 * P.rArena)
  if cur.2 = false ∨ prev.2 = false then (-1, -1)
  else
    (normAngle ((cur.1.1 - prev.1.1) * Real.pi) / Real.pi,
     convertIntoInterval (cur.1.2 - prev.1.2)
       (-normMaxRelDistChange P) (normMaxRelDistChange P) (-1) 1)

/-- DroneTeamCaptureModel._target_distance: distance from a pursuer to the
target. -/
noncomputable def targetDistance (P : Params) (s : State) (i : ℕ) : ℝ :=
  euclideanDist (s.pursuers i) s.target

/-- DroneTeamCaptureModel._get_closest_pursuer: index of the first pursuer
attaining the minimal distance to the target (the source's running-minimum
loop with a strict comparison; the empty case, where the source raises,
is mapped to index 0). -/
noncomputable def closestPursuer (P : Params) (s : State) : ℕ :=
  ((List.range P.nPursuers).foldl
    (fun best idx =>
      match best with
      | none => some (idx, targetDistance P s idx)
      | some bd =>
          if targetDistance P s idx < bd.2 then some (idx, targetDistance P s idx)
          else some bd)
    none).elim 0 Prod.fst

/-- The divisor of the per-pursuer division in
DroneTeamCaptureModel._get_unit_vectors: the raw pursuer-target euclidean
distance, used unguarded as a denominator. -/
noncomputable def unitVectorDiv (p target : Body) : ℝ :=
  euclideanDist p target

/-- One entry of DroneTeamCaptureModel._get_unit_vectors:
[p[0] / dist, p[1] / dist] for dist the pursuer-target distance. -/
noncomputable def unitVector (p target : Body) : ℝ × ℝ :=
  (p.x / unitVectorDiv p target, p.y / unitVectorDiv p target)

/-- DroneTeamCaptureModel._q_parameter: the Q-formation value
(sum over non-closest pursuers of dot(unit_i, unit_closest) + 1, divided by
the number of pursuers). -/
noncomputable def qParameter (P : Params) (s : State) : ℝ :=
  let c := closestPursuer P s
  let u := fun i => unitVector (s.pursuers i) s.target
  (((List.range P.nPursuers).map
      (fun i => if i = c then 0 else (u i).1 * (u c).1 + (u i).2 * (u c).2 + 1)).sum)
    / P.nPursuers

/-- DroneTeamCaptureModel._abs_sum for a 2-vector. -/
noncomputable def absSum (v : ℝ × ℝ) : ℝ := |v.1| + |v.2|

/-- The divisor of the division in DroneTeamCaptureModel._scale_vector:
max(0.00001, abs_sum(vector)), i.e. the guarded denominator. -/
noncomputable def scaleVectorDiv (v : ℝ × ℝ) : ℝ :=
  max (1 / 100000) (absSum v)

/-- DroneTeamCaptureModel._scale_vector: adds to final_vector the input
vector scaled by -factor * scale_fn(abs_sum(vector)) / max(0.00001, abs_sum). -/
noncomputable def scaleVector (v : ℝ × ℝ) (scaleFn : ℝ → ℝ)
    (finalVector : ℝ × ℝ) (factor : ℝ) : ℝ × ℝ :=
  let vecSum := absSum v
  let f := -factor * scaleFn vecSum / scaleVectorDiv v
  (finalVector.1 + f * v.1, finalVector.2 + f * v.2)

/-- DroneTeamCaptureModel._get_target_move_repulsive: the evader's velocity
as the normalized vectorial sum of repulsion from every pursuer and from the
closest point of the circular wall. -/
noncomputable def targetMoveRepulsive (P : Params) (s : State) : ℝ × ℝ :=
  let x := s.target.x
  let y := s.target.y
  let scaleFn : ℝ → ℝ := fun z => 50000 / (|z| + 200) ^ 2
  let fv0 : ℝ × ℝ :=
    (List.range P.nPursuers).foldl
      (fun fv i => scaleVector ((s.pursuers i).x - x, (s.pursuers i).y - y) scaleFn fv 1)
      (0, 0)
  let gamma := -atan2 (y - P.rArena) (x - P.rArena)
  let virtualWall : ℝ × ℝ :=
    (P.rArena + P.rArena * Real.cos gamma, P.rArena + -(P.rArena * Real.sin gamma))
  let fv : ℝ × ℝ :=
    scaleVector (virtualWall.1 - x, virtualWall.2 - y) scaleFn fv0
      (1 / 2 * P.nPursuers)
  let sx := fv.1 / absSum fv
  let sy := fv.2 / absSum fv
  let d := Real.sqrt (sx ^ 2 + sy ^ 2)
  (s.targetVel * sx / d, s.targetVel * sy / d)

/-- The strict comparison of the sort key used on the per-pursuer engagement
list in _get_obs: Python's sorted with key inf-for-(-1), so an entry with
distance -1 sorts after every other entry, otherwise by distance. -/
noncomputable def engKeyLt (a b : ℝ × ℝ) : Bool :=
  if a.2 = -1 then false
  else if b.2 = -1 then true
  else decide (a.2 < b.2)

/-- Stable insertion of one element into a sorted list: the new element goes
after every strictly smaller element, matching Python's stable sorted. -/
noncomputable def insertEng (a : ℝ × ℝ) : List (ℝ × ℝ) → List (ℝ × ℝ)
  | [] => [a]
  | b :: l => if engKeyLt b a then b :: insertEng a l else a :: b :: l

/-- Stable sort of the engagement list (Python sorted with the inf key). -/
noncomputable def sortEng : List (ℝ × ℝ) → List (ℝ × ℝ)
  | [] => []
  | a :: l => insertEng a (sortEng l)

/-- One agent's observation vector from DroneTeamCaptureModel._get_obs:
[angle_i, turn_rate, alpha_t, dist_t, alpha_rate, dist_rate] followed by the
(alpha, dist) pairs of the n_com_pursuers closest other pursuers (invalid
entries sorted to the end). -/
noncomputable def obsAgent (P : Params) (s : State) (i : ℕ) : List ℝ :=
  let cur := engagement P (s.pursuers i) s.target (2 * P.rArena)
  let rf := rateFeatures P s i
  let engs : List (ℝ × ℝ) :=
    (List.range P.nPursuers).map
      (fun j => if j = i then ((-1 : ℝ), (-1 : ℝ))
                else (engagement P (s.pursuers i) (s.pursuers j) (2 * P.rArena)).1)
  let sortedE := sortEng engs
  let angleI := normAngle ((s.pursuers i).angle) / Real.pi
  let prevAngleI := normAngle ((s.prevPursuers i).angle) / Real.pi
  let turnRate := angleI - prevAngleI
  [angleI, turnRate, cur.1.1, cur.1.2, rf.1, rf.2] ++
    ((List.range P.nCom).map
      (fun k => [(sortedE.getD k (0, 0)).1, (sortedE.getD k (0, 0)).2])).flatten

/-- DroneTeamCaptureModel._get_obs: the per-agent observation dictionary. -/
noncomputable def getObs (P : Params) (s : State) : ℕ → List ℝ :=
  fun i => obsAgent P s i

/-- DroneTeamCaptureModel._get_rewards: the episode-done flag (some pursuer
within capture_radius of the target) and the per-agent rewards
(-0.1 * Q - 0.002 * dist, plus 30 for a capturing pursuer, plus 100 for
everyone when done). -/
noncomputable def getRewards (P : Params) (s : State) : Prop × (ℕ → ℝ) :=
  let q := qParameter P s
  let done : Prop := ∃ i, i < P.nPursuers ∧ targetDistance P s i < P.captureRadius
  (done,
   fun i =>
     -q * (1 / 10) - (2 / 1000) * targetDistance P s i
       + (if targetDistance P s i < P.captureRadius then 30 else 0)
       + (if done then 100 else 0))

/-- DroneTeamCaptureModel.reward_ranges: (0.0, R_MAX) = (0, 130) for every
agent. -/
noncomputable def rewardRanges (P : Params) : ℕ → ℝ × ℝ :=
  fun _ => (0, 130)

/-- Modelled from the spec: one forward-Euler substep of World.simulate for
the circular world (posggym.envs.continuous.core, not under src/): position
advances by velocity, heading by angular velocity and is normalized, and a
position leaving the circular boundary (center (r, r), radius r) is
projected back onto it. -/
noncomputable def stepBodyCirc (r dt : ℝ) (b : Body) : Body :=
  let nx := b.x + b.vx * dt
  let ny := b.y + b.vy * dt
  let na := normAngle (b.angle + b.avel * dt)
  let inside : Prop := (nx - r) ^ 2 + (ny - r) ^ 2 ≤ r ^ 2
  let nrm := Real.sqrt ((nx - r) ^ 2 + (ny - r) ^ 2)
  let px := if inside then nx else r + r * (nx - r) / nrm
  let py := if inside then ny else r + r * (ny - r) / nrm
  ⟨px, py, na, b.vx, b.vy, b.avel⟩

/-- Modelled from the spec: World.simulate(dt, substeps) for the circular
world: substeps forward-Euler sub-intervals of total duration dt. -/
noncomputable def simulateCirc (r dt : ℝ) (substeps : ℕ) (b : Body) : Body :=
  (stepBodyCirc r (dt / substeps))^[substeps] b

/-- Modelled from the spec: clip_actions for the drone-team-capture action
spaces: angular velocity into [-dyaw_limit, dyaw_limit] and, under velocity
control, the velocity factor into [0, 1]. -/
noncomputable def clipAction (P : Params) (a : ℝ × ℝ) : ℝ × ℝ :=
  (clipR a.1 (-dyawLimit) dyawLimit,
   if P.velocityControl then clipR a.2 0 1 else a.2)

/-- DroneTeamCaptureModel._get_next_state: writes each pursuer's commanded
angle and velocity and the evader's repulsive velocity into the world,
simulates, and reads the updated body states back; the previous-state slots
receive the pre-step states. -/
noncomputable def nextState (P : Params) (s : State) (acts : ℕ → ℝ × ℝ) :
    State :=
  let pursuerBody := fun i =>
    let a := acts i
    let velocityFactor := if P.velocityControl then a.2 else 1
    let pursuerAngle := (s.pursuers i).angle + a.1
    let v := velocityFromHeading (velocityFactor * maxPursuerVel) pursuerAngle
    Body.mk (s.pursuers i).x (s.pursuers i).y pursuerAngle v.1 v.2
      (s.pursuers i).avel
  let ev := targetMoveRepulsive P s
  let evaderBody :=
    Body.mk s.target.x s.target.y s.target.angle ev.1 ev.2 s.target.avel
  { pursuers := fun i => simulateCirc P.rArena (1 / 10) 10 (pursuerBody i),
    prevPursuers := s.pursuers,
    target := simulateCirc P.rArena (1 / 10) 10 evaderBody,
    prevTarget := s.target,
    targetVel := s.targetVel }

/-- The joint timestep returned by DroneTeamCaptureModel.step. -/
structure Timestep where
  next : State
  obs : ℕ → List ℝ
  rewards : ℕ → ℝ
  allDone : Prop

/-- DroneTeamCaptureModel.step: clips the actions, computes the next state,
and assembles observations and rewards -- both from the pre-step state
argument, not from the updated state. -/
noncomputable def step (P : Params) (s : State) (acts : ℕ → ℝ × ℝ) : Timestep :=
  let clipped := fun i => clipAction P (acts i)
  { next := nextState P s clipped,
    obs := getObs P s,
    rewards := (getRewards P s).2,
    allDone := (getRewards P s).1 }

end DTC

namespace PP

open PCN

/-- Constructor parameters of PPModel that the embedded functions depend on
(num_predators, num_prey, cooperative, prey_strength, obs_dist, n_sensors,
use_holonomic) together with the world's size. -/
structure Params where
  numPredators : ℕ
  numPrey : ℕ
  cooperative : Bool
  preyStrength : ℕ
  obsDist : ℝ
  nSensors : ℕ
  useHolonomic : Bool
  size : ℝ

/-- Fixed model parameter STEP_VEL = 0.5. -/
noncomputable def stepVel : ℝ := 1 / 2

/-- Fixed model parameter COLLISION_DIST = 1.2. -/
noncomputable def collisionDist : ℝ := 12 / 10

/-- Fixed model parameter R_MAX = 1.0. -/
noncomputable def rMax : ℝ := 1

/-- Per-prey reward R_MAX / num_prey. -/
noncomputable def perPreyReward (P : Params) : ℝ := rMax / P.numPrey

/-- A state of the predator-prey model (PPState): per-predator and per-prey
body states and the caught flags, modelled as total functions from the
agent index. -/
structure State where
  predators : ℕ → Body
  prey : ℕ → Body
  caught : ℕ → Bool

/-- The frozen state written for a caught prey:
[-1.0, -1.0, 0.0, 0.0, 0.0, 0.0]. -/
noncomputable def caughtSentinel : Body := Body.mk (-1) (-1) 0 0 0 0

/-- Modelled from the spec: the signature of
SquareContinuousWorld.check_collision_circular_rays
(posggym.envs.continuous.core2, not under src/), abstracted as a parameter:
given the observer pose, the maximum range, the sensor count, an optional
candidate list and the include_blocks / check_border / use_relative_angle
flags, it yields the per-sensor nearest-hit distance.  The spec's contract
(each reading lies in [0, max_range], max_range meaning no hit) is taken as
a hypothesis where needed. -/
def RayFn : Type :=
  (ℝ × ℝ × ℝ) → ℝ → ℕ → Option (List (ℝ × ℝ)) → Bool → Bool → Bool → ℕ → ℝ

/-- An abstract pseudo-random source threaded through the stochastic parts
of the model: the operations of self.rng that the source calls, as pure
state-passing functions on a generator-state type. -/
structure RNGOps (g : Type) where
  random : g → ℝ × g
  uniform : ℝ → ℝ → g → ℝ × g
  choiceNat : List ℕ → g → ℕ × g
  shufflePos : List (ℝ × ℝ × ℝ) → g → List (ℝ × ℝ × ℝ) × g

/-- The minimum of a list of reals, as numpy's min on a nonempty array
(0 for the empty list, on which the source would raise). -/
noncomputable def listMin (l : List ℝ) : ℝ := l.foldl min (l.headD 0)

/-- PPModel._get_prey_move_angles: the per-prey movement angle, in order of
priority: 0 for an already-caught prey; away from the closest predator
within obs_dist (ties broken by an rng.choice over the indices attaining
the minimum); uniformly random when this prey is the only active one; away
from the closest other active prey within obs_dist (the source indexes the
full prey array with the position found in the filtered distance list);
uniformly random otherwise.  The generator state is threaded through every
draw and returned.  The extra ambient argument stands for the global
randomness available to the process; the translation never reads it. -/
noncomputable def preyMoveAngles {g a : Type} (P : Params) (ops : RNGOps g)
    (ambient : a) (s : State) (g0 : g) : List ℝ × g :=
  let activePrey := P.numPrey - (List.range P.numPrey).countP (fun j => s.caught j)
  (List.range P.numPrey).foldl
    (fun acc i =>
      let angles := acc.1
      let gi := acc.2
      if s.caught i then (angles ++ [0], gi)
      else
        let preyState := s.prey i
        let predDists :=
          (List.range P.numPredators).map (fun j => euclideanDist preyState (s.predators j))
        let minPredDist := listMin predDists
        if minPredDist ≤ P.obsDist then
          let tie := (List.range P.numPredators).filter
            (fun j => decide (predDists.getD j 0 = minPredDist))
          let pick := ops.choiceNat tie gi
          let predState := s.predators pick.1
          let angle := atan2 (preyState.y - predState.y) (preyState.x - predState.x)
          (angles ++ [angle], pick.2)
        else if activePrey = 1 then
          let u := ops.uniform 0 (2 * Real.pi) gi
          (angles ++ [u.1], u.2)
        else
          let others := (List.range P.numPrey).filter
            (fun j => !s.caught j && decide (j ≠ i))
          let preyDists := others.map (fun j => euclideanDist preyState (s.prey j))
          let minPreyDist := listMin preyDists
          if minPreyDist ≤ P.obsDist then
            let tie := (List.range others.length).filter
              (fun j => decide (preyDists.getD j 0 = minPreyDist))
            let pick := ops.choiceNat tie gi
            let otherPreyState := s.prey pick.1
            let angle :=
              atan2 (preyState.y - otherPreyState.y) (preyState.x - otherPreyState.x)
            (angles ++ [angle], pick.2)
          else
            let u := ops.uniform 0 (2 * Real.pi) gi
            (angles ++ [u.1], u.2))
    ([], g0)

/-- Modelled from the spec: one forward-Euler substep of World.simulate for
the square world (posggym.envs.continuous.core2, not under src/): position
advances by velocity and is clamped into [0, size], heading advances by
angular velocity and is normalized. -/
noncomputable def stepBodySq (size dt : ℝ) (b : Body) : Body :=
  Body.mk (max 0 (min size (b.x + b.vx * dt))) (max 0 (min size (b.y + b.vy * dt)))
    (normAngle (b.angle + b.avel * dt)) b.vx b.vy b.avel

/-- Modelled from the spec: World.simulate(dt, substeps) for the square
world. -/
noncomputable def simulateSq (size dt : ℝ) (substeps : ℕ) (b : Body) : Body :=
  (stepBodySq size (dt / substeps))^[substeps] b

/-- Fixed model parameter dyaw_limit = pi / 10 of PPModel. -/
noncomputable def dyawLimitPP : ℝ := Real.pi / 10

/-- Modelled from the spec: clip_actions for the predator-prey action
spaces: under holonomic dynamics both components into [-1, 1], otherwise
the angular velocity into [-pi/10, pi/10] and the velocity into [0, 1]. -/
noncomputable def clipActionPP (P : Params) (act : ℝ × ℝ) : ℝ × ℝ :=
  if P.useHolonomic then (clipR act.1 (-1) 1, clipR act.2 (-1) 1)
  else (clipR act.1 (-dyawLimitPP) dyawLimitPP, clipR act.2 0 1)

/-- The observer pose used by _get_local_obs: the agent's x, y and angle. -/
noncomputable def agentPose (s : State) (agentId : ℕ) : ℝ × ℝ × ℝ :=
  ((s.predators agentId).x, (s.predators agentId).y, (s.predators agentId).angle)

/-- The prey ray-cast pass of _get_local_obs: the candidate coordinates are
the uncaught prey, flags include_blocks=False, check_border=False,
use_relative_angle=True. -/
noncomputable def preyReading (P : Params) (rayFn : RayFn) (agentId : ℕ)
    (s : State) : ℕ → ℝ :=
  rayFn (agentPose s agentId) P.obsDist P.nSensors
    (some (((List.range P.numPrey).filter (fun i => !s.caught i)).map
      (fun i => ((s.prey i).x, (s.prey i).y)))) false false true

/-- The predator ray-cast pass of _get_local_obs: the candidates are the
other predators. -/
noncomputable def predReading (P : Params) (rayFn : RayFn) (agentId : ℕ)
    (s : State) : ℕ → ℝ :=
  rayFn (agentPose s agentId) P.obsDist P.nSensors
    (some (((List.range P.numPredators).filter (fun i => decide (i ≠ agentId))).map
      (fun i => ((s.predators i).x, (s.predators i).y)))) false false true

/-- The obstacle ray-cast pass of _get_local_obs: no candidates,
include_blocks=True, check_border=True. -/
noncomputable def obstacleReading (P : Params) (rayFn : RayFn) (agentId : ℕ)
    (s : State) : ℕ → ℝ :=
  rayFn (agentPose s agentId) P.obsDist P.nSensors none true true true

/-- min(sensor_readings) for the three per-class readings of one sensor. -/
noncomputable def minReading (w p q : ℝ) : ℝ := min w (min p q)

/-- sensor_readings.index(min_val) for the three per-class readings of one
sensor: the first index (class order obstacle, predator, prey) whose reading
equals the minimum. -/
noncomputable def minClassIdx (w p q : ℝ) : ℕ :=
  if w = minReading w p q then 0 else if p = minReading w p q then 1 else 2

/-- PPModel._get_local_obs for one agent: the three ray-cast passes (prey
with the uncaught-prey coordinates, predators with the other predators'
coordinates, obstacles with blocks and border) and the per-sensor
combination: the observation starts filled with obs_dist and, for each
sensor k, the slot of the first class attaining the minimal reading
(obs[min_idx * n_sensors + k] = min_val) receives that minimum. -/
noncomputable def localObs (P : Params) (rayFn : RayFn) (agentId : ℕ)
    (s : State) : List ℝ :=
  let w := obstacleReading P rayFn agentId s
  let p := predReading P rayFn agentId s
  let q := preyReading P rayFn agentId s
  let obsFun :=
    (List.range P.nSensors).foldl
      (fun o k => Function.update o
        (minClassIdx (w k) (p k) (q k) * P.nSensors + k)
        (minReading (w k) (p k) (q k)))
      (fun _ => P.obsDist)
  (List.range (3 * P.nSensors)).map obsFun

/-- PPModel.get_obs: the per-agent observation dictionary. -/
noncomputable def getObs (P : Params) (rayFn : RayFn) (s : State) :
    ℕ → List ℝ :=
  fun i => localObs P rayFn i s

/-- PPModel._get_next_state: prey move by their chosen angles at STEP_VEL
(caught prey keep their stored body unchanged), predators move by their
clipped actions under the chosen dynamics, the world simulates, and a prey
whose simulated position is within COLLISION_DIST of at least prey_strength
simulated predators becomes caught; caught prey read back as the frozen
sentinel state. -/
noncomputable def nextState {g a : Type} (P : Params) (ops : RNGOps g)
    (ambient : a) (s : State) (acts : ℕ → ℝ × ℝ) (g0 : g) : State × g :=
  let ma := preyMoveAngles P ops ambient s g0
  let preyBody := fun i =>
    if s.caught i then s.prey i
    else
      let ang := ma.1.getD i 0
      Body.mk (s.prey i).x (s.prey i).y ang (stepVel * Real.cos ang)
        (stepVel * Real.sin ang) (s.prey i).avel
  let predBody := fun i =>
    let act := acts i
    if P.useHolonomic then
      Body.mk (s.predators i).x (s.predators i).y (atan2 act.2 act.1) act.1 act.2
        (s.predators i).avel
    else
      let ang := (s.predators i).angle + act.1
      Body.mk (s.predators i).x (s.predators i).y ang (act.2 * Real.cos ang)
        (act.2 * Real.sin ang) (s.predators i).avel
  let simPred := fun i => simulateSq P.size (1 / 10) 10 (predBody i)
  let simPrey := fun i => simulateSq P.size (1 / 10) 10 (preyBody i)
  let captured := fun i =>
    P.preyStrength ≤ (List.range P.numPredators).countP
      (fun j => decide (euclideanDist (simPrey i) (simPred j) ≤ collisionDist))
  let nextCaught := fun i => s.caught i || decide (captured i)
  let nextPrey := fun i =>
    if s.caught i then caughtSentinel
    else if captured i then caughtSentinel
    else simPrey i
  ({ predators := simPred, prey := nextPrey, caught := nextCaught }, ma.2)

/-- PPModel._get_rewards: 0 for everyone when no prey was newly caught this
step; the shared count * per-prey reward in cooperative mode; otherwise each
newly caught prey's per-prey reward split among the predators within
COLLISION_DIST of its (frozen) recorded state. -/
noncomputable def getRewards (P : Params) (s ns : State) : ℕ → ℝ :=
  let newCaught :=
    (List.range P.numPrey).filter (fun i => !s.caught i && ns.caught i)
  if newCaught.length = 0 then fun _ => 0
  else if P.cooperative then fun _ => newCaught.length * perPreyReward P
  else fun i =>
    (newCaught.map (fun pi =>
      let involved := (List.range P.numPredators).filter
        (fun j => decide (euclideanDist (ns.prey pi) (ns.predators j) ≤ collisionDist))
      if i ∈ involved then perPreyReward P / involved.length else 0)).sum

/-- The joint timestep returned by PPModel.step. -/
structure Timestep where
  next : State
  obs : ℕ → List ℝ
  rewards : ℕ → ℝ
  allDone : Prop

/-- PPModel.step: clips the actions, computes the next state, and assembles
the observations from that updated next state, the rewards from the
state/next-state pair, and the termination flag from the updated caught
vector. -/
noncomputable def step {g a : Type} (P : Params) (rayFn : RayFn)
    (ops : RNGOps g) (ambient : a) (s : State) (acts : ℕ → ℝ × ℝ) (g0 : g) :
    Timestep × g :=
  let clipped := fun i => clipActionPP P (acts i)
  let ns := nextState P ops ambient s clipped g0
  ({ next := ns.1,
     obs := getObs P rayFn ns.1,
     rewards := getRewards P s ns.1,
     allDone := ∀ i, i < P.numPrey → ns.1.caught i = true }, ns.2)

/-- PPModel.sample_initial_state: shuffles the predator start positions and
the prey start positions with the model's rng and places the agents on the
first entries, with zero velocities and no prey caught.  The ambient
argument again stands for global randomness the code never reads. -/
noncomputable def sampleInitialState {g a : Type} (P : Params) (ops : RNGOps g)
    (ambient : a) (predStarts preyStarts : List (ℝ × ℝ × ℝ)) (g0 : g) :
    State × g :=
  let sp := ops.shufflePos predStarts g0
  let sq := ops.shufflePos preyStarts sp.2
  ({ predators := fun i =>
       let t := sp.1.getD i (0, 0, 0)
       Body.mk t.1 t.2.1 t.2.2 0 0 0,
     prey := fun i =>
       let t := sq.1.getD i (0, 0, 0)
       Body.mk t.1 t.2.1 t.2.2 0 0 0,
     caught := fun _ => false }, sq.2)

/-- The construction-time validation of PPModel.__init__, as the sequence of
its assert statements: 1 < num_predators <= 8, num_prey > 0, obs_dist > 0,
0 < prey_strength <= min(4, num_predators) (with the None default
min(4, num_predators)), and enough predator and prey start positions in the
chosen world. -/
def modelValid (numPredators numPrey : ℤ) (preyStrength : Option ℤ)
    (obsDist : ℚ) (nPredStarts nPreyStarts : ℕ) : Bool :=
  decide (1 < numPredators) && decide (numPredators ≤ 8) &&
  decide (0 < numPrey) && decide (0 < obsDist) &&
  (let ps := preyStrength.getD (min 4 numPredators)
   decide (0 < ps) && decide (ps ≤ min 4 numPredators)) &&
  decide (numPredators ≤ (nPredStarts : ℤ)) &&
  decide (numPrey ≤ (nPreyStarts : ℤ))

end PP

open PCN

/-- The default drone-team-capture parameters: 3 pursuers, 3 communicating,
no velocity control, arena radius 430, observation limit 430, capture
radius 30. -/
noncomputable def dtcDefault : DTC.Params :=
  { nPursuers := 3, nCom := 3, velocityControl := false, rArena := 430,
    observationLimit := 430, captureRadius := 30 }

/-- A body at the arena center with zero heading and zero velocities. -/
noncomputable def bodyCenter : Body := Body.mk 430 430 0 0 0 0

/-- A drone-team-capture state with every pursuer and the target at the
arena center, in the current and the previous snapshot. -/
noncomputable def stateCenter : DTC.State :=
  { pursuers := fun _ => bodyCenter, prevPursuers := fun _ => bodyCenter,
    target := bodyCenter, prevTarget := bodyCenter, targetVel := 10 }

lemma engagement_coincident (P : DTC.Params) (nf x y t vx vy w t2 vx2 vy2 w2 : ℝ)
    (h0 : 0 ≤ P.observationLimit) :
    DTC.engagement P (Body.mk x y t vx vy w) (Body.mk x y t2 vx2 vy2 w2) nf =
      ((0, 0), true) := by
  have hd : euclideanDist (Body.mk x y t vx vy w) (Body.mk x y t2 vx2 vy2 w2) = 0 := by
    simp [euclideanDist]
  simp only [DTC.engagement, hd]
  rw [if_neg (not_lt.mpr h0)]
  norm_num [atan2_zero_zero, normAngle_zero]

lemma engagement_center_visible :
    (DTC.engagement dtcDefault bodyCenter bodyCenter (2 * dtcDefault.rArena)).2 = true := by
  rw [show bodyCenter = Body.mk 430 430 0 0 0 0 from rfl]
  rw [engagement_coincident dtcDefault (2 * dtcDefault.rArena) 430 430 0 0 0 0 0 0 0 0
    (by norm_num [dtcDefault])]

/-- C2: DroneTeamCaptureModel._engagement returns the sentinel pair with
visibility flag false exactly when the euclidean distance strictly exceeds
observation_limit; at the boundary value or below it returns the computed
(bearing, distance) pair with visibility flag true, never the sentinel. -/
theorem engagement_sentinel_iff_C2 (P : DTC.Params) (bi bj : Body) (nf : ℝ) :
    ((DTC.engagement P bi bj nf).2 = false ↔
      P.observationLimit < euclideanDist bi bj)
    ∧ (euclideanDist bi bj ≤ P.observationLimit →
        DTC.engagement P bi bj nf =
          ((normAngle (atan2
              (-Real.sin bi.angle * (bi.x - bj.x) + Real.cos bi.angle * (bi.y - bj.y))
              (Real.cos bi.angle * (bi.x - bj.x) + Real.sin bi.angle * (bi.y - bj.y)))
            / Real.pi,
            euclideanDist bi bj / nf), true)) := by
  constructor
  · constructor
    · intro hf
      by_contra hnot
      push_neg at hnot
      simp [DTC.engagement, not_lt.mpr hnot] at hf
    · intro hlt
      simp [DTC.engagement, hlt]
  · intro hle
    simp [DTC.engagement, not_lt.mpr hle]

/-- C4: for a visible engagement both returned features lie in [-1, 1]:
the bearing is normalized into (-pi, pi] and divided by pi, and the
distance is divided by the normalization factor (2 * arena_size at the
call sites), which bounds it whenever observation_limit is at most that
factor. -/
theorem engagement_in_range_C4 (P : DTC.Params) (bi bj : Body) (nf : ℝ)
    (hnf : 0 < nf) (hlim : P.observationLimit ≤ nf)
    (hvis : (DTC.engagement P bi bj nf).2 = true) :
    -1 ≤ (DTC.engagement P bi bj nf).1.1 ∧ (DTC.engagement P bi bj nf).1.1 ≤ 1 ∧
    -1 ≤ (DTC.engagement P bi bj nf).1.2 ∧ (DTC.engagement P bi bj nf).1.2 ≤ 1 := by
  by_cases h : P.observationLimit < euclideanDist bi bj
  · exfalso
    simp [DTC.engagement, h] at hvis
  · have hpi : (0 : ℝ) < Real.pi := Real.pi_pos
    have hdnn : 0 ≤ euclideanDist bi bj := euclideanDist_nonneg bi bj
    have hdle : euclideanDist bi bj ≤ nf := le_trans (not_lt.mp h) hlim
    have hmem := normAngle_mem (atan2
      (-Real.sin bi.angle * (bi.x - bj.x) + Real.cos bi.angle * (bi.y - bj.y))
      (Real.cos bi.angle * (bi.x - bj.x) + Real.sin bi.angle * (bi.y - bj.y)))
    simp only [DTC.engagement, if_neg h]
    refine ⟨?_, ?_, ?_, ?_⟩
    · rw [le_div_iff₀ hpi]
      linarith [hmem.1]
    · rw [div_le_one hpi]
      exact hmem.2
    · have := div_nonneg hdnn (le_of_lt hnf)
      linarith
    · rw [div_le_one hnf]
      exact hdle

/-- Witness for C4 at the default parameters with coincident bodies. -/
theorem engagement_in_range_C4_witness :
    -1 ≤ (DTC.engagement dtcDefault bodyCenter bodyCenter (2 * dtcDefault.rArena)).1.1 ∧
    (DTC.engagement dtcDefault bodyCenter bodyCenter (2 * dtcDefault.rArena)).1.1 ≤ 1 ∧
    -1 ≤ (DTC.engagement dtcDefault bodyCenter bodyCenter (2 * dtcDefault.rArena)).1.2 ∧
    (DTC.engagement dtcDefault bodyCenter bodyCenter (2 * dtcDefault.rArena)).1.2 ≤ 1 :=
  engagement_in_range_C4 dtcDefault bodyCenter bodyCenter (2 * dtcDefault.rArena)
    (by norm_num [dtcDefault]) (by norm_num [dtcDefault]) engagement_center_visible

/-- C3 (amended): the engagement bearing at coincident poses is the
well-defined finite value 0 (atan2 of the rotated zero vector), and the
division inside _scale_vector is guarded by the strictly positive divisor
max(0.00001, abs_sum); but the per-pursuer division in _get_unit_vectors
divides by the raw pursuer-target distance, which the state below makes
zero. -/
theorem division_guards_C3 :
    (∀ v : ℝ × ℝ, 0 < DTC.scaleVectorDiv v)
    ∧ (∀ (P : DTC.Params) (nf x y t vx vy w t2 vx2 vy2 w2 : ℝ),
        0 ≤ P.observationLimit →
          DTC.engagement P (Body.mk x y t vx vy w) (Body.mk x y t2 vx2 vy2 w2) nf =
            ((0, 0), true))
    ∧ (∃ p target : Body, DTC.unitVectorDiv p target = 0) := by
  refine ⟨?_, ?_, ?_⟩
  · intro v
    calc (0 : ℝ) < 1 / 100000 := by norm_num
    _ ≤ DTC.scaleVectorDiv v := le_max_left _ _
  · intro P nf x y t vx vy w t2 vx2 vy2 w2 h0
    exact engagement_coincident P nf x y t vx vy w t2 vx2 vy2 w2 h0
  · exact ⟨bodyCenter, bodyCenter, euclideanDist_self bodyCenter⟩

/-- Counterexample to C3 as stated: in the state with pursuer 0 coincident
with the target, the divisor of _get_unit_vectors' division (the raw
pursuer-target distance) is exactly 0, so that division is not guarded. -/
theorem unit_vector_division_unguarded_C3 :
    DTC.unitVectorDiv (stateCenter.pursuers 0) stateCenter.target = 0 :=
  euclideanDist_self bodyCenter

/-- C5: the rate-of-change features of _get_obs: both are -1 when the
target engagement is invisible in the current or previous state; otherwise
the bearing-rate is the wraparound-safe difference of the normalized
bearings (rescaled through (-pi, pi] then divided by pi) and the range-rate
is the difference of normalized distances remapped from [-m, m] into
[-1, 1] for the static bound m = max_pursuer_vel * (1 + 2) / (2 *
arena_size), and both features lie in [-1, 1]. -/
theorem rate_features_C5 (P : DTC.Params) (s : DTC.State) (i : ℕ) :
    (((DTC.engagement P (s.pursuers i) s.target (2 * P.rArena)).2 = false ∨
      (DTC.engagement P (s.prevPursuers i) s.prevTarget (2 * P.rArena)).2 = false) →
        DTC.rateFeatures P s i = (-1, -1))
    ∧ ((DTC.engagement P (s.pursuers i) s.target (2 * P.rArena)).2 = true →
       (DTC.engagement P (s.prevPursuers i) s.prevTarget (2 * P.rArena)).2 = true →
        DTC.rateFeatures P s i =
          (normAngle
              (((DTC.engagement P (s.pursuers i) s.target (2 * P.rArena)).1.1 -
                (DTC.engagement P (s.prevPursuers i) s.prevTarget (2 * P.rArena)).1.1)
                * Real.pi) / Real.pi,
           convertIntoInterval
              ((DTC.engagement P (s.pursuers i) s.target (2 * P.rArena)).1.2 -
               (DTC.engagement P (s.prevPursuers i) s.prevTarget (2 * P.rArena)).1.2)
              (-(DTC.maxPursuerVel * (1 + 2) / (2 * P.rArena)))
              (DTC.maxPursuerVel * (1 + 2) / (2 * P.rArena)) (-1) 1)
        ∧ -1 ≤ (DTC.rateFeatures P s i).1 ∧ (DTC.rateFeatures P s i).1 ≤ 1
        ∧ -1 ≤ (DTC.rateFeatures P s i).2 ∧ (DTC.rateFeatures P s i).2 ≤ 1) := by
  have hnorm : DTC.normMaxRelDistChange P =
      DTC.maxPursuerVel * (1 + 2) / (2 * P.rArena) := by
    simp [DTC.normMaxRelDistChange, DTC.maxRelDistChange, DTC.targetRelVelBounds]
  constructor
  · intro h
    have hcond : ((DTC.engagement P (s.pursuers i) s.target (2 * P.rArena)).2 = false ∨
        (DTC.engagement P (s.prevPursuers i) s.prevTarget (2 * P.rArena)).2 = false) := h
    simp only [DTC.rateFeatures]
    rw [if_pos hcond]
  · intro hc hp
    have hcond : ¬ ((DTC.engagement P (s.pursuers i) s.target (2 * P.rArena)).2 = false ∨
        (DTC.engagement P (s.prevPursuers i) s.prevTarget (2 * P.rArena)).2 = false) := by
      rw [hc, hp]
      simp
    have hpi : (0 : ℝ) < Real.pi := Real.pi_pos
    have hval : DTC.rateFeatures P s i =
        (normAngle
            (((DTC.engagement P (s.pursuers i) s.target (2 * P.rArena)).1.1 -
              (DTC.engagement P (s.prevPursuers i) s.prevTarget (2 * P.rArena)).1.1)
              * Real.pi) / Real.pi,
         convertIntoInterval
            ((DTC.engagement P (s.pursuers i) s.target (2 * P.rArena)).1.2 -
             (DTC.engagement P (s.prevPursuers i) s.prevTarget (2 * P.rArena)).1.2)
            (-(DTC.maxPursuerVel * (1 + 2) / (2 * P.rArena)))
            (DTC.maxPursuerVel * (1 + 2) / (2 * P.rArena)) (-1) 1) := by
      simp only [DTC.rateFeatures]
      rw [if_neg hcond, hnorm]
    refine ⟨hval, ?_, ?_, ?_, ?_⟩
    · rw [hval]
      have hmem := normAngle_mem
        (((DTC.engagement P (s.pursuers i) s.target (2 * P.rArena)).1.1 -
          (DTC.engagement P (s.prevPursuers i) s.prevTarget (2 * P.rArena)).1.1)
          * Real.pi)
      rw [le_div_iff₀ hpi]
      linarith [hmem.1]
    · rw [hval]
      have hmem := normAngle_mem
        (((DTC.engagement P (s.pursuers i) s.target (2 * P.rArena)).1.1 -
          (DTC.engagement P (s.prevPursuers i) s.prevTarget (2 * P.rArena)).1.1)
          * Real.pi)
      rw [div_le_one hpi]
      exact hmem.2
    · rw [hval]
      exact (convertIntoInterval_mem _ _ _ _ _ (by norm_num)).1
    · rw [hval]
      exact (convertIntoInterval_mem _ _ _ _ _ (by norm_num)).2

/-- Witness for C5 at the default parameters with all agents coincident. -/
theorem rate_features_C5_witness :
    DTC.rateFeatures dtcDefault stateCenter 0 =
      (normAngle
          (((DTC.engagement dtcDefault (stateCenter.pursuers 0) stateCenter.target
              (2 * dtcDefault.rArena)).1.1 -
            (DTC.engagement dtcDefault (stateCenter.prevPursuers 0) stateCenter.prevTarget
              (2 * dtcDefault.rArena)).1.1) * Real.pi) / Real.pi,
       convertIntoInterval
          ((DTC.engagement dtcDefault (stateCenter.pursuers 0) stateCenter.target
              (2 * dtcDefault.rArena)).1.2 -
           (DTC.engagement dtcDefault (stateCenter.prevPursuers 0) stateCenter.prevTarget
              (2 * dtcDefault.rArena)).1.2)
          (-(DTC.maxPursuerVel * (1 + 2) / (2 * dtcDefault.rArena)))
          (DTC.maxPursuerVel * (1 + 2) / (2 * dtcDefault.rArena)) (-1) 1)
    ∧ -1 ≤ (DTC.rateFeatures dtcDefault stateCenter 0).1
    ∧ (DTC.rateFeatures dtcDefault stateCenter 0).1 ≤ 1
    ∧ -1 ≤ (DTC.rateFeatures dtcDefault stateCenter 0).2
    ∧ (DTC.rateFeatures dtcDefault stateCenter 0).2 ≤ 1 :=
  (rate_features_C5 dtcDefault stateCenter 0).2
    engagement_center_visible engagement_center_visible

lemma foldl_update_not_mem {f : ℕ → ℕ} {v : ℕ → ℝ} :
    ∀ (l : List ℕ) (init : ℕ → ℝ) (j : ℕ), (∀ k ∈ l, f k ≠ j) →
      (l.foldl (fun o k => Function.update o (f k) (v k)) init) j = init j := by
  intro l
  induction l with
  | nil => intro init j _; rfl
  | cons a t ih =>
    intro init j h
    simp only [List.foldl_cons]
    rw [ih _ j (fun k hk => h k (List.mem_cons_of_mem _ hk))]
    exact Function.update_noteq (Ne.symm (h a (List.mem_cons_self a t))) _ _

lemma foldl_update_mem {f : ℕ → ℕ} {v : ℕ → ℝ} :
    ∀ (l : List ℕ) (init : ℕ → ℝ) (k : ℕ), k ∈ l →
      (∀ k2 ∈ l, f k2 = f k → k2 = k) →
      (l.foldl (fun o k2 => Function.update o (f k2) (v k2)) init) (f k) = v k := by
  intro l
  induction l with
  | nil => intro init k hk; simp at hk
  | cons a t ih =>
    intro init k hk huniq
    simp only [List.foldl_cons]
    by_cases hak : a = k
    · subst hak
      by_cases hmem : a ∈ t
      · exact ih _ a hmem (fun k2 hk2 he => huniq k2 (List.mem_cons_of_mem _ hk2) he)
      · have hne : ∀ k2 ∈ t, f k2 ≠ f a := by
          intro k2 hk2 he
          exact hmem ((huniq k2 (List.mem_cons_of_mem _ hk2) he) ▸ hk2)
        rw [foldl_update_not_mem t _ _ hne]
        exact Function.update_same _ _ _
    · have hkt : k ∈ t := by
        rcases List.mem_cons.mp hk with h1 | h2
        · exact absurd h1.symm hak
        · exact h2
      exact ih _ k hkt (fun k2 hk2 he => huniq k2 (List.mem_cons_of_mem _ hk2) he)

lemma getD_map_range {f : ℕ → ℝ} {m j : ℕ} (h : j < m) :
    ((List.range m).map f).getD j 0 = f j := by
  rw [List.getD_eq_getElem?_getD, List.getElem?_map, List.getElem?_range h]
  rfl

lemma minClassIdx_lt_three (w p q : ℝ) : PP.minClassIdx w p q < 3 := by
  unfold PP.minClassIdx
  split_ifs <;> norm_num

lemma minClassIdx_eq (w p q : ℝ) :
    PP.minClassIdx w p q = if w ≤ p ∧ w ≤ q then 0 else if p ≤ q then 1 else 2 := by
  unfold PP.minClassIdx
  by_cases h1 : w ≤ p ∧ w ≤ q
  · have hm : w = PP.minReading w p q := (min_eq_left (le_min h1.1 h1.2)).symm
    rw [if_pos hm, if_pos h1]
  · have hlt : min p q < w := by
      rcases not_and_or.mp h1 with h | h
      · exact lt_of_le_of_lt (min_le_left p q) (not_le.mp h)
      · exact lt_of_le_of_lt (min_le_right p q) (not_le.mp h)
    have hm : PP.minReading w p q = min p q := min_eq_right (le_of_lt hlt)
    have hwne : ¬ (w = PP.minReading w p q) := by
      rw [hm]
      exact ne_of_gt hlt
    rw [if_neg hwne, if_neg h1]
    by_cases h2 : p ≤ q
    · have hpe : p = PP.minReading w p q := by
        rw [hm, min_eq_left h2]
      rw [if_pos hpe, if_pos h2]
    · have hpne : ¬ (p = PP.minReading w p q) := by
        rw [hm, min_eq_right (le_of_lt (not_le.mp h2))]
        exact ne_of_gt (not_le.mp h2)
      rw [if_neg hpne, if_neg h2]

lemma minReading_bounds {w p q d : ℝ} (hw : 0 ≤ w ∧ w ≤ d) (hp : 0 ≤ p ∧ p ≤ d)
    (hq : 0 ≤ q ∧ q ≤ d) : 0 ≤ PP.minReading w p q ∧ PP.minReading w p q ≤ d := by
  constructor
  · exact le_min hw.1 (le_min hp.1 hq.1)
  · exact le_trans (min_le_left _ _) hw.2

/-- C1: PPModel._get_local_obs returns a vector of length 3 * n_sensors
with every entry in [0, obs_dist]; for each sensor k the slot of the class
whose reading is minimal (wall at k, predator at n_sensors + k, prey at
2 * n_sensors + k) holds that minimum while the other two slots hold
exactly obs_dist, and an exact tie goes to the earliest class in the order
wall, predator, prey.  The ray readings are constrained by the spec's
ray-cast contract. -/
theorem local_obs_C1 (P : PP.Params) (rayFn : PP.RayFn) (agentId : ℕ)
    (s : PP.State)
    (hray : ∀ (pose : ℝ × ℝ × ℝ) (targs : Option (List (ℝ × ℝ))) (b1 b2 : Bool)
      (k : ℕ), k < P.nSensors →
      0 ≤ rayFn pose P.obsDist P.nSensors targs b1 b2 true k ∧
      rayFn pose P.obsDist P.nSensors targs b1 b2 true k ≤ P.obsDist)
    (hd : 0 ≤ P.obsDist) :
    (PP.localObs P rayFn agentId s).length = 3 * P.nSensors ∧
    (∀ j, j < 3 * P.nSensors →
      0 ≤ (PP.localObs P rayFn agentId s).getD j 0 ∧
      (PP.localObs P rayFn agentId s).getD j 0 ≤ P.obsDist) ∧
    (∀ k, k < P.nSensors →
      ((PP.localObs P rayFn agentId s).getD k 0,
       (PP.localObs P rayFn agentId s).getD (P.nSensors + k) 0,
       (PP.localObs P rayFn agentId s).getD (2 * P.nSensors + k) 0) =
        (let w := PP.obstacleReading P rayFn agentId s k
         let p := PP.predReading P rayFn agentId s k
         let q := PP.preyReading P rayFn agentId s k
         let m := PP.minReading w p q
         if w ≤ p ∧ w ≤ q then (m, P.obsDist, P.obsDist)
         else if p ≤ q then (P.obsDist, m, P.obsDist)
         else (P.obsDist, P.obsDist, m))) := by
  set n := P.nSensors with hn
  set d := P.obsDist with hdd
  set w := PP.obstacleReading P rayFn agentId s with hw
  set p := PP.predReading P rayFn agentId s with hp
  set q := PP.preyReading P rayFn agentId s with hq
  set f : ℕ → ℕ := fun k => PP.minClassIdx (w k) (p k) (q k) * n + k with hf
  set v : ℕ → ℝ := fun k => PP.minReading (w k) (p k) (q k) with hv
  set obsFun : ℕ → ℝ :=
    (List.range n).foldl (fun o k => Function.update o (f k) (v k)) (fun _ => d)
    with hobsFun
  have hloc : PP.localObs P rayFn agentId s = (List.range (3 * n)).map obsFun := rfl
  have hwb : ∀ k, k < n → 0 ≤ w k ∧ w k ≤ d := fun k hk => hray _ _ _ _ k hk
  have hpb : ∀ k, k < n → 0 ≤ p k ∧ p k ≤ d := fun k hk => hray _ _ _ _ k hk
  have hqb : ∀ k, k < n → 0 ≤ q k ∧ q k ≤ d := fun k hk => hray _ _ _ _ k hk
  have hmod : ∀ k, k < n → f k % n = k := by
    intro k hk
    show (PP.minClassIdx (w k) (p k) (q k) * n + k) % n = k
    conv_lhs => rw [Nat.add_comm]
    rw [Nat.add_mul_mod_self_right, Nat.mod_eq_of_lt hk]
  have huniq : ∀ k, k < n → ∀ k2 ∈ List.range n, f k2 = f k → k2 = k := by
    intro k hk k2 hk2 he
    have hk2n : k2 < n := List.mem_range.mp hk2
    have := hmod k2 hk2n
    rw [he, hmod k hk] at this
    exact this.symm
  have hslot : ∀ c k, k < n → obsFun (c * n + k) =
      if PP.minClassIdx (w k) (p k) (q k) = c then v k else d := by
    intro c k hk
    by_cases hc : PP.minClassIdx (w k) (p k) (q k) = c
    · rw [if_pos hc]
      have hfk : f k = c * n + k := by
        rw [hf]
        simp only []
        rw [hc]
      rw [← hfk]
      exact foldl_update_mem (List.range n) _ k (List.mem_range.mpr hk) (huniq k hk)
    · rw [if_neg hc]
      apply foldl_update_not_mem
      intro k2 hk2 he
      have hk2n : k2 < n := List.mem_range.mp hk2
      have hkk : k2 = k := by
        have h1 := hmod k2 hk2n
        rw [he] at h1
        have h2 : (c * n + k) % n = k := by
          conv_lhs => rw [Nat.add_comm]
          rw [Nat.add_mul_mod_self_right, Nat.mod_eq_of_lt hk]
        rw [h2] at h1
        exact h1.symm
      apply hc
      subst hkk
      have hcan : PP.minClassIdx (w k2) (p k2) (q k2) * n + k2 = c * n + k2 := he
      have hn0 : 0 < n := lt_of_le_of_lt (Nat.zero_le _) hk
      have : PP.minClassIdx (w k2) (p k2) (q k2) * n = c * n := by omega
      exact Nat.eq_of_mul_eq_mul_right hn0 this
  refine ⟨?_, ?_, ?_⟩
  · rw [hloc]
    simp
  · intro j hj
    have hn0 : 0 < n := by
      rcases Nat.eq_zero_or_pos n with h | h
      · rw [h] at hj
        omega
      · exact h
    have hk : j % n < n := Nat.mod_lt _ hn0
    have hjd : j = (j / n) * n + j % n := by
      conv_lhs => rw [← Nat.div_add_mod j n]
      ring
    rw [hloc, getD_map_range hj, hjd, hslot (j / n) (j % n) hk]
    by_cases hcc : PP.minClassIdx (w (j % n)) (p (j % n)) (q (j % n)) = j / n
    · rw [if_pos hcc]
      exact minReading_bounds (hwb _ hk) (hpb _ hk) (hqb _ hk)
    · rw [if_neg hcc]
      exact ⟨hd, le_refl d⟩
  · intro k hk
    have hk3 : k < 3 * n := by omega
    have hk3b : n + k < 3 * n := by omega
    have hk3c : 2 * n + k < 3 * n := by omega
    have e0 : k = 0 * n + k := by ring
    have e1 : n + k = 1 * n + k := by ring
    rw [hloc, getD_map_range hk3, getD_map_range hk3b, getD_map_range hk3c]
    rw [show obsFun k = obsFun (0 * n + k) from by rw [← e0],
        show obsFun (n + k) = obsFun (1 * n + k) from by rw [← e1]]
    rw [hslot 0 k hk, hslot 1 k hk, hslot 2 k hk]
    rw [minClassIdx_eq (w k) (p k) (q k)]
    by_cases h1 : w k ≤ p k ∧ w k ≤ q k
    · rw [if_pos h1]
      simp [h1]
    · rw [if_neg h1]
      by_cases h2 : p k ≤ q k
      · rw [if_pos h2]
        simp [h1, h2]
      · rw [if_neg h2]
        simp [h1, h2]

/-- Default-like predator-prey parameters: 2 predators, 3 prey,
cooperative, prey strength 2, obs_dist 2, 10 sensors, holonomic dynamics,
world size 10. -/
noncomputable def ppDefault : PP.Params :=
  { numPredators := 2, numPrey := 3, cooperative := true, preyStrength := 2,
    obsDist := 2, nSensors := 10, useHolonomic := true, size := 10 }

/-- A ray-cast function whose every reading is 0 (everything adjacent). -/
noncomputable def rayZero : PP.RayFn := fun _ _ _ _ _ _ _ _ => 0

/-- A body inside the 10 x 10 world. -/
noncomputable def bodyFive : Body := Body.mk 5 5 0 0 0 0

/-- A predator-prey state with every agent at (5, 5) and no prey caught. -/
noncomputable def ppStateFive : PP.State :=
  { predators := fun _ => bodyFive, prey := fun _ => bodyFive,
    caught := fun _ => false }

/-- Witness for C1 at concrete parameters and the all-zero ray function. -/
theorem local_obs_C1_witness :
    (PP.localObs ppDefault rayZero 0 ppStateFive).length = 3 * ppDefault.nSensors ∧
    (∀ j, j < 3 * ppDefault.nSensors →
      0 ≤ (PP.localObs ppDefault rayZero 0 ppStateFive).getD j 0 ∧
      (PP.localObs ppDefault rayZero 0 ppStateFive).getD j 0 ≤ ppDefault.obsDist) ∧
    (∀ k, k < ppDefault.nSensors →
      ((PP.localObs ppDefault rayZero 0 ppStateFive).getD k 0,
       (PP.localObs ppDefault rayZero 0 ppStateFive).getD (ppDefault.nSensors + k) 0,
       (PP.localObs ppDefault rayZero 0 ppStateFive).getD
         (2 * ppDefault.nSensors + k) 0) =
        (let w := PP.obstacleReading ppDefault rayZero 0 ppStateFive k
         let p := PP.predReading ppDefault rayZero 0 ppStateFive k
         let q := PP.preyReading ppDefault rayZero 0 ppStateFive k
         let m := PP.minReading w p q
         if w ≤ p ∧ w ≤ q then (m, ppDefault.obsDist, ppDefault.obsDist)
         else if p ≤ q then (ppDefault.obsDist, m, ppDefault.obsDist)
         else (ppDefault.obsDist, ppDefault.obsDist, m))) :=
  local_obs_C1 ppDefault rayZero 0 ppStateFive
    (fun pose targs b1 b2 k _ => by
      constructor
      · norm_num [rayZero]
      · norm_num [rayZero, ppDefault])
    (by norm_num [ppDefault])

/-- C7: PPModel construction fails fast exactly when one of the asserted
conditions is violated: the model validates iff num_predators does not
exceed the predator start positions, num_prey does not exceed the prey
start positions, 1 < num_predators <= 8, num_prey > 0, obs_dist > 0, and
the effective prey_strength (defaulting to min(4, num_predators)) lies in
(0, min(4, num_predators)]. -/
theorem model_valid_iff_C7 (numPredators numPrey : ℤ)
    (preyStrength : Option ℤ) (obsDist : ℚ) (nPredStarts nPreyStarts : ℕ) :
    PP.modelValid numPredators numPrey preyStrength obsDist nPredStarts
        nPreyStarts = true ↔
      (numPredators ≤ (nPredStarts : ℤ) ∧ numPrey ≤ (nPreyStarts : ℤ) ∧
       1 < numPredators ∧ numPredators ≤ 8 ∧ 0 < numPrey ∧ 0 < obsDist ∧
       0 < preyStrength.getD (min 4 numPredators) ∧
       preyStrength.getD (min 4 numPredators) ≤ min 4 numPredators) := by
  simp only [PP.modelValid, Bool.and_eq_true, decide_eq_true_eq]
  tauto

/-- A trivial deterministic instance of the rng interface. -/
noncomputable def opsTrivial : PP.RNGOps Unit :=
  { random := fun u => (0, u), uniform := fun _ _ u => (0, u),
    choiceNat := fun l u => (l.headD 0, u), shufflePos := fun l u => (l, u) }

/-- C8: PPModel.step is deterministic relative to its pseudo-random source:
two runs from equal states, equal action dictionaries and equal rng states
produce equal results, and the result is invariant in the ambient (global)
randomness, which none of the stochastic choices (_get_prey_move_angles'
tie-breaking and uniform draws, sample_initial_state's shuffles) reads. -/
theorem step_deterministic_C8 {g a : Type} (P : PP.Params) (rayFn : PP.RayFn)
    (ops : PP.RNGOps g) (amb1 amb2 : a) (s s2 : PP.State)
    (acts acts2 : ℕ → ℝ × ℝ) (g0 g2 : g)
    (predStarts preyStarts : List (ℝ × ℝ × ℝ))
    (hs : s = s2) (hacts : acts = acts2) (hg : g0 = g2) :
    PP.step P rayFn ops amb1 s acts g0 = PP.step P rayFn ops amb2 s2 acts2 g2 ∧
    PP.preyMoveAngles P ops amb1 s g0 = PP.preyMoveAngles P ops amb2 s2 g2 ∧
    PP.sampleInitialState P ops amb1 predStarts preyStarts g0 =
      PP.sampleInitialState P ops amb2 predStarts preyStarts g2 := by
  subst hs
  subst hacts
  subst hg
  exact ⟨rfl, rfl, rfl⟩

/-- Witness for C8 with two distinct ambient randomness states. -/
theorem step_deterministic_C8_witness :
    PP.step ppDefault rayZero opsTrivial (0 : ℕ) ppStateFive (fun _ => (0, 0)) () =
      PP.step ppDefault rayZero opsTrivial (1 : ℕ) ppStateFive (fun _ => (0, 0)) () ∧
    PP.preyMoveAngles ppDefault opsTrivial (0 : ℕ) ppStateFive () =
      PP.preyMoveAngles ppDefault opsTrivial (1 : ℕ) ppStateFive () ∧
    PP.sampleInitialState ppDefault opsTrivial (0 : ℕ) [] [] () =
      PP.sampleInitialState ppDefault opsTrivial (1 : ℕ) [] [] () :=
  step_deterministic_C8 ppDefault rayZero opsTrivial 0 1 ppStateFive ppStateFive
    (fun _ => (0, 0)) (fun _ => (0, 0)) () () [] [] rfl rfl rfl

/-- C9: caught prey stay caught and frozen: if prey i is caught in the
current state then after PPModel._get_next_state it is still caught and its
stored state is the sentinel (-1, -1, 0, 0, 0, 0); quantified over every
prey index this is the componentwise monotonicity of the caught vector. -/
theorem caught_prey_frozen_C9 {g a : Type} (P : PP.Params) (ops : PP.RNGOps g)
    (ambient : a) (s : PP.State) (acts : ℕ → ℝ × ℝ) (g0 : g) (i : ℕ)
    (hi : i < P.numPrey) (hc : s.caught i = true) :
    (PP.nextState P ops ambient s acts g0).1.caught i = true ∧
    (PP.nextState P ops ambient s acts g0).1.prey i = PP.caughtSentinel := by
  constructor
  · simp [PP.nextState, hc]
  · simp [PP.nextState, hc]

/-- A predator-prey state in which every prey is already caught. -/
noncomputable def ppStateCaught : PP.State :=
  { predators := fun _ => bodyFive, prey := fun _ => bodyFive,
    caught := fun _ => true }

/-- Witness for C9 at a concrete state with prey 0 caught. -/
theorem caught_prey_frozen_C9_witness :
    (PP.nextState ppDefault opsTrivial (0 : ℕ) ppStateCaught (fun _ => (0, 0))
        ()).1.caught 0 = true ∧
    (PP.nextState ppDefault opsTrivial (0 : ℕ) ppStateCaught (fun _ => (0, 0))
        ()).1.prey 0 = PP.caughtSentinel :=
  caught_prey_frozen_C9 ppDefault opsTrivial 0 ppStateCaught (fun _ => (0, 0)) () 0
    (by norm_num [ppDefault]) rfl

/-- Drone-team-capture parameters with two pursuers. -/
noncomputable def dtcTwo : DTC.Params :=
  { nPursuers := 2, nCom := 3, velocityControl := false, rArena := 430,
    observationLimit := 430, captureRadius := 30 }

/-- A pursuer at the left edge of the arena. -/
noncomputable def pLeft : Body := Body.mk 0 430 0 0 0 0

/-- A pursuer at the right edge of the arena. -/
noncomputable def pRight : Body := Body.mk 860 430 0 0 0 0

/-- The two-pursuer state with the target at the center, both pursuers at
distance 430 from it. -/
noncomputable def cexState : DTC.State :=
  { pursuers := fun i => if i = 0 then pLeft else pRight,
    prevPursuers := fun i => if i = 0 then pLeft else pRight,
    target := bodyCenter, prevTarget := bodyCenter, targetVel := 10 }

lemma distL : euclideanDist pLeft bodyCenter = 430 := by
  have h : (pLeft.x - bodyCenter.x) ^ 2 + (pLeft.y - bodyCenter.y) ^ 2 = 430 ^ 2 := by
    norm_num [pLeft, bodyCenter]
  rw [euclideanDist, h, Real.sqrt_sq (by norm_num : (0 : ℝ) ≤ 430)]

lemma distR : euclideanDist pRight bodyCenter = 430 := by
  have h : (pRight.x - bodyCenter.x) ^ 2 + (pRight.y - bodyCenter.y) ^ 2 = 430 ^ 2 := by
    norm_num [pRight, bodyCenter]
  rw [euclideanDist, h, Real.sqrt_sq (by norm_num : (0 : ℝ) ≤ 430)]

lemma cex_td0 : DTC.targetDistance dtcTwo cexState 0 = 430 := by
  show euclideanDist (cexState.pursuers 0) cexState.target = 430
  simp only [cexState]
  norm_num
  exact distL

lemma cex_td1 : DTC.targetDistance dtcTwo cexState 1 = 430 := by
  show euclideanDist (cexState.pursuers 1) cexState.target = 430
  simp only [cexState]
  norm_num
  exact distR

lemma cex_closest : DTC.closestPursuer dtcTwo cexState = 0 := by
  have hr2 : List.range dtcTwo.nPursuers = [0, 1] := rfl
  rw [DTC.closestPursuer, hr2]
  simp only [List.foldl_cons, List.foldl_nil]
  rw [cex_td0, cex_td1]
  norm_num

lemma cex_not_done :
    ¬ ∃ i, i < dtcTwo.nPursuers ∧
      DTC.targetDistance dtcTwo cexState i < dtcTwo.captureRadius := by
  rintro ⟨i, hi, hlt⟩
  have hcap : dtcTwo.captureRadius = 30 := rfl
  have h2 : dtcTwo.nPursuers = 2 := rfl
  rw [h2] at hi
  have : i = 0 ∨ i = 1 := by omega
  rcases this with h | h
  · subst h
    rw [cex_td0, hcap] at hlt
    norm_num at hlt
  · subst h
    rw [cex_td1, hcap] at hlt
    norm_num at hlt

lemma cex_q : DTC.qParameter dtcTwo cexState = 1 := by
  have hu0 : DTC.unitVector (cexState.pursuers 0) cexState.target = (0, 1) := by
    show DTC.unitVector pLeft bodyCenter = (0, 1)
    rw [DTC.unitVector, DTC.unitVectorDiv, distL]
    norm_num [pLeft]
  have hu1 : DTC.unitVector (cexState.pursuers 1) cexState.target = (2, 1) := by
    show DTC.unitVector pRight bodyCenter = (2, 1)
    rw [DTC.unitVector, DTC.unitVectorDiv, distR]
    norm_num [pRight]
  have hr2 : List.range dtcTwo.nPursuers = [0, 1] := rfl
  rw [DTC.qParameter]
  simp only [cex_closest, hr2, List.map_cons, List.map_nil, hu0, hu1]
  norm_num
  have h2 : dtcTwo.nPursuers = 2 := rfl
  rw [h2]
  norm_num

/-- Counterexample to C10: in the two-pursuer state above no capture occurs
and agent 0's reward is -0.96, strictly below the declared lower end 0.0 of
reward_ranges. -/
theorem rewards_outside_range_C10 :
    (DTC.getRewards dtcTwo cexState).2 0 < (DTC.rewardRanges dtcTwo 0).1 := by
  have hcap : dtcTwo.captureRadius = 30 := rfl
  simp only [DTC.getRewards, DTC.rewardRanges]
  rw [cex_q, cex_td0]
  rw [if_neg (by rw [hcap]; norm_num : ¬ (430 : ℝ) < dtcTwo.captureRadius)]
  rw [if_neg cex_not_done]
  norm_num

/-- C10 (amended): every reward of _get_rewards is at most the upper end
130 = R_MAX of the declared reward_ranges whenever all pursuer coordinates
are nonnegative (as inside the arena); the declared lower end 0.0 is not
respected, since non-capture steps produce strictly negative shaping
rewards (see the counterexample). -/
theorem rewards_upper_bound_C10 (P : DTC.Params) (s : DTC.State)
    (hcoord : ∀ i, 0 ≤ (s.pursuers i).x ∧ 0 ≤ (s.pursuers i).y) (i : ℕ) :
    (DTC.getRewards P s).2 i ≤ (DTC.rewardRanges P i).2 := by
  have hq : 0 ≤ DTC.qParameter P s := by
    rw [DTC.qParameter]
    apply div_nonneg
    · apply List.sum_nonneg
      intro x hx
      obtain ⟨j, hj, rfl⟩ := List.mem_map.mp hx
      by_cases hjc : j = DTC.closestPursuer P s
      · rw [if_pos hjc]
      · rw [if_neg hjc]
        have h1 := div_nonneg (hcoord j).1
          (euclideanDist_nonneg (s.pursuers j) s.target)
        have h2 := div_nonneg (hcoord j).2
          (euclideanDist_nonneg (s.pursuers j) s.target)
        have h3 := div_nonneg (hcoord (DTC.closestPursuer P s)).1
          (euclideanDist_nonneg (s.pursuers (DTC.closestPursuer P s)) s.target)
        have h4 := div_nonneg (hcoord (DTC.closestPursuer P s)).2
          (euclideanDist_nonneg (s.pursuers (DTC.closestPursuer P s)) s.target)
        simp only [DTC.unitVector, DTC.unitVectorDiv]
        positivity
    · exact Nat.cast_nonneg _
  have htd : 0 ≤ DTC.targetDistance P s i := Real.sqrt_nonneg _
  have hcapb : (if DTC.targetDistance P s i < P.captureRadius
      then (30 : ℝ) else 0) ≤ 30 := by
    split_ifs <;> norm_num
  have hdoneb : (if (∃ k, k < P.nPursuers ∧
      DTC.targetDistance P s k < P.captureRadius) then (100 : ℝ) else 0) ≤ 100 := by
    split_ifs <;> norm_num
  simp only [DTC.getRewards, DTC.rewardRanges]
  nlinarith [hq, htd, hcapb, hdoneb]

/-- Witness for C10's amended bound at the concrete two-pursuer state. -/
theorem rewards_upper_bound_C10_witness :
    (DTC.getRewards dtcTwo cexState).2 0 ≤ (DTC.rewardRanges dtcTwo 0).2 :=
  rewards_upper_bound_C10 dtcTwo cexState
    (by
      intro i
      by_cases h : i = 0
      · simp [cexState, h, pLeft]
      · simp [cexState, h, pRight]) 0

/-- C6 (amended): PPModel.step assembles its observations from the updated
next state it returns (and its rewards and termination decision from the
state/next-state pair keyed on the updated caught vector), but
DroneTeamCaptureModel.step assembles both its observations and its rewards
from the pre-step state argument, not from the updated state. -/
theorem step_data_flow_C6 :
    (∀ {g a : Type} (P : PP.Params) (rayFn : PP.RayFn) (ops : PP.RNGOps g)
        (ambient : a) (s : PP.State) (acts : ℕ → ℝ × ℝ) (g0 : g),
      (PP.step P rayFn ops ambient s acts g0).1.obs =
        PP.getObs P rayFn (PP.step P rayFn ops ambient s acts g0).1.next ∧
      (PP.step P rayFn ops ambient s acts g0).1.rewards =
        PP.getRewards P s (PP.step P rayFn ops ambient s acts g0).1.next)
    ∧ (∀ (P : DTC.Params) (s : DTC.State) (acts : ℕ → ℝ × ℝ),
      (DTC.step P s acts).obs = DTC.getObs P s ∧
      (DTC.step P s acts).rewards = (DTC.getRewards P s).2) := by
  constructor
  · intro g a P rayFn ops ambient s acts g0
    exact ⟨rfl, rfl⟩
  · intro P s acts
    exact ⟨rfl, rfl⟩

/-- Drone-team-capture parameters with velocity control enabled. -/
noncomputable def dtcVel : DTC.Params :=
  { nPursuers := 2, nCom := 1, velocityControl := true, rArena := 430,
    observationLimit := 430, captureRadius := 30 }

/-- The action turning by dyaw_limit with zero velocity factor. -/
noncomputable def actsTurn : ℕ → ℝ × ℝ := fun _ => (Real.pi / 10, 0)

lemma clip_actsTurn : DTC.clipAction dtcVel (Real.pi / 10, 0) = (Real.pi / 10, 0) := by
  have h1 : clipR (Real.pi / 10) (-DTC.dyawLimit) DTC.dyawLimit = Real.pi / 10 :=
    clipR_eq_self (by rw [DTC.dyawLimit]; nlinarith [Real.pi_pos])
      (le_of_eq (by rw [DTC.dyawLimit]))
  have h2 : clipR (0 : ℝ) 0 1 = 0 := clipR_eq_self (le_refl 0) (by norm_num)
  simp [DTC.clipAction, dtcVel, h1, h2]

lemma stepBodyCirc_fixed (dt : ℝ) :
    DTC.stepBodyCirc 430 dt (Body.mk 430 430 (Real.pi / 10) 0 0 0) =
      Body.mk 430 430 (Real.pi / 10) 0 0 0 := by
  have hna : normAngle (Real.pi / 10) = Real.pi / 10 :=
    normAngle_eq_self (by nlinarith [Real.pi_pos]) (by nlinarith [Real.pi_pos])
  norm_num [DTC.stepBodyCirc, hna]

lemma next_pursuer_turned :
    (DTC.step dtcVel stateCenter actsTurn).next.pursuers 0 =
      Body.mk 430 430 (Real.pi / 10) 0 0 0 := by
  have hb : (DTC.step dtcVel stateCenter actsTurn).next.pursuers 0 =
      DTC.simulateCirc dtcVel.rArena (1 / 10) 10
        (Body.mk 430 430 (Real.pi / 10) 0 0 0) := by
    simp only [DTC.step, DTC.nextState]
    congr 1
    simp [stateCenter, bodyCenter, actsTurn, clip_actsTurn, velocityFromHeading,
      show dtcVel.velocityControl = true from rfl, DTC.maxPursuerVel]
  rw [hb, show dtcVel.rArena = (430 : ℝ) from rfl, DTC.simulateCirc]
  exact Function.iterate_fixed (stepBodyCirc_fixed _) 10

lemma obs_head (P : DTC.Params) (s : DTC.State) (i : ℕ) :
    (DTC.getObs P s i).headD 0 = normAngle ((s.pursuers i).angle) / Real.pi := by
  simp [DTC.getObs, DTC.obsAgent]

/-- Counterexample to C6: with velocity control, two pursuers at the arena
center and the turn-by-dyaw_limit action, the observations returned by
DroneTeamCaptureModel.step differ from the observation function applied to
the next state that the same step call returns (the first feature, the
agent's normalized heading, is 0 from the stale state but 1/10 from the
updated state). -/
theorem dtc_step_obs_stale_C6 :
    (DTC.step dtcVel stateCenter actsTurn).obs ≠
      DTC.getObs dtcVel ((DTC.step dtcVel stateCenter actsTurn).next) := by
  intro h
  have h0 := congrArg (fun o => (o 0).headD (0 : ℝ)) h
  have hL : ((DTC.step dtcVel stateCenter actsTurn).obs 0).headD 0 = 0 := by
    have : (DTC.step dtcVel stateCenter actsTurn).obs 0 =
        DTC.getObs dtcVel stateCenter 0 := rfl
    rw [this, obs_head]
    have hang : (stateCenter.pursuers 0).angle = 0 := rfl
    rw [hang, normAngle_zero, zero_div]
  have hR : ((DTC.getObs dtcVel ((DTC.step dtcVel stateCenter actsTurn).next)) 0).headD 0
      = 1 / 10 := by
    rw [obs_head, next_pursuer_turned]
    show normAngle (Real.pi / 10) / Real.pi = 1 / 10
    rw [normAngle_eq_self (by nlinarith [Real.pi_pos]) (by nlinarith [Real.pi_pos])]
    rw [div_div]
    rw [div_eq_iff (by positivity : (10 : ℝ) * Real.pi ≠ 0)]
    ring
  simp only [hL] at h0
  rw [hR] at h0
  norm_num at h0
